import Mathlib

/-!
Verification development for the dj-braintree repository.

The repository persists Braintree gateway objects (customers, transactions)
as local rows and exposes action methods (capture, refund, void, escrow
transitions) that call the gateway and sync the result back.

`src/djbraintree/models.py` (the `Customer.get_or_create` / `Customer.create`
class methods and the `Transaction` foreign key) is embedded directly from the
source.  The base classes `BraintreeCustomer` / `BraintreeTransaction` live in
`djbraintree/braintree_objects.py`, a file of this repository that is not under
`src/`; the definitions that come from it (`calculate_max_refund`,
`sync_from_braintree_object`, the action methods) are modelled from the spec,
as their doc comments state, guided by the tests in
`src/tests/test_transaction.py`.

Monetary amounts use `Rat` (exact arithmetic, as the spec's "exact decimal
arithmetic" requires — Python's `decimal.Decimal` values are rationals).
The ORM store is modelled as explicit lists of rows threaded through each
operation; gateway calls are modelled as explicit `Except` results or response
objects passed in, with the calls actually issued returned as a log where a
claim needs to observe them.
-/

namespace DjBraintree

/-- A gateway customer object embedded in an API response (the mirrored
profile fields the sync copies, keyed by the remote identifier `id`). -/
structure BTCustomerObj where
  id : String
  first_name : Option String
  last_name : Option String
  email : Option String
  deriving DecidableEq, Repr

/-- A gateway transaction object from an API response. -/
structure BTTransactionObj where
  id : String
  amount : Rat
  transaction_type : String
  status : Option String
  amount_refunded : Option Rat
  escrow_status : Option String
  customer : BTCustomerObj
  deriving DecidableEq, Repr

/-- A local `Customer` row: remote identifier (unique), optional owning
entity reference (the `entity` one-to-one field of `models.py`, nullable),
and the mirrored profile fields. The owning entity is identified by an
opaque numeric key. -/
structure Customer where
  braintree_id : String
  entity : Option Nat
  first_name : Option String
  last_name : Option String
  email : Option String
  deriving DecidableEq, Repr

/-- A local `Transaction` row. The foreign key to the owning `Customer` row
(`models.py`: `customer = models.ForeignKey(Customer, ...)`) is recorded by
the customer's remote identifier, which is unique per customer row. -/
structure Transaction where
  braintree_id : String
  customer_id : Option String
  amount : Rat
  transaction_type : String
  status : Option String
  amount_refunded : Option Rat
  escrow_status : Option String
  deriving DecidableEq, Repr

/-- The local record store: the `Customer` and `Transaction` tables. -/
structure DB where
  customers : List Customer
  transactions : List Transaction
  deriving DecidableEq, Repr

/-- Row lookup by remote identifier in the `Customer` table. -/
def DB.findCustomer (db : DB) (rid : String) : Option Customer :=
  db.customers.find? (fun c => c.braintree_id == rid)

/-- Row lookup by remote identifier in the `Transaction` table. -/
def DB.findTransaction (db : DB) (rid : String) : Option Transaction :=
  db.transactions.find? (fun t => t.braintree_id == rid)

/-- A local `Customer` row built from a gateway customer object's mirrored
fields. A row created as a side effect of a transaction sync has no owning
entity, so `entity` is `none`. -/
def Customer.fromObj (o : BTCustomerObj) : Customer :=
  { braintree_id := o.id
    entity := none
    first_name := o.first_name
    last_name := o.last_name
    email := o.email }

/-- Modelled from the spec: resolution of a transaction's embedded customer
during sync (`braintree_objects.py`, not under `src/`). Spec 4.1: "If the
response references a related entity (e.g., a transaction's customer) by
remote identifier, resolve or create that related row first, then link it".
Look the remote identifier up in the `Customer` table; if a row exists use
it, otherwise create one carrying the mirrored fields. -/
def resolveCustomer (cs : List Customer) (o : BTCustomerObj) :
    List Customer × Customer :=
  match cs.find? (fun c => c.braintree_id == o.id) with
  | some c => (cs, c)
  | none => (cs ++ [Customer.fromObj o], Customer.fromObj o)

/-- The local `Transaction` row mirroring a gateway transaction object,
linked to the customer row whose remote identifier is the embedded
customer's. -/
def Transaction.fromObj (o : BTTransactionObj) : Transaction :=
  { braintree_id := o.id
    customer_id := some o.customer.id
    amount := o.amount
    transaction_type := o.transaction_type
    status := o.status
    amount_refunded := o.amount_refunded
    escrow_status := o.escrow_status }

/-- Modelled from the spec: the transaction-table upsert step of sync
(spec 4.1): look the remote identifier up; if absent, create the row; if
present, overwrite its mirrored fields in place. -/
def upsertTx (ts : List Transaction) (o : BTTransactionObj) :
    List Transaction :=
  match ts.find? (fun x => x.braintree_id == o.id) with
  | some _ =>
      ts.map (fun x => if x.braintree_id == o.id then Transaction.fromObj o else x)
  | none => ts ++ [Transaction.fromObj o]

/-- Modelled from the spec: `Transaction.sync_from_braintree_object`
(`braintree_objects.py`, not under `src/`). Spec 4.1: resolve or create the
related customer row first, then link it; then upsert the transaction row by
remote identifier. Returns the updated store and the synced row. -/
def sync_from_braintree_object (db : DB) (o : BTTransactionObj) :
    DB × Transaction :=
  ({ customers := (resolveCustomer db.customers o.customer).1
     transactions := upsertTx db.transactions o },
   Transaction.fromObj o)

/-- Modelled from the spec: `calculate_max_refund` of `BraintreeTransaction`
(`braintree_objects.py`, not under `src/`). Spec 4.2: the remaining
refundable balance is the original amount minus the already-applied refund
total, an unrecorded prior refund counting as zero; with no requested amount
the remaining balance is returned; a requested amount within the balance is
returned unchanged and one exceeding it is silently clamped to the balance. -/
def Transaction.calculate_max_refund (t : Transaction) (amount : Option Rat) :
    Rat :=
  let max_refund := t.amount - (t.amount_refunded.getD 0)
  match amount with
  | none => max_refund
  | some m => if m ≤ max_refund then m else max_refund

/-- A concrete transaction row used by witnesses: amount 500.00, no prior
refund, as in the spec's examples and `test_calculate_refund_amount_full_refund`. -/
def sampleTx : Transaction :=
  { braintree_id := "ch_111111"
    customer_id := some "cus_xxxxxxxxxxxxxxx"
    amount := 500
    transaction_type := "sale"
    status := none
    amount_refunded := none
    escrow_status := none }

/-- Claim C1: for a transaction of amount `A` with applied refund total `R`
(an unrecorded prior refund counting as 0), `calculate_max_refund` on a
requested amount `m` equals `min m (A - R)`: it returns `m` when
`m ≤ A - R` and the remaining balance `A - R` when `m` exceeds it. The
function is total, so an over-request never signals an error. -/
theorem calculate_max_refund_clamps (t : Transaction) (m A R : Rat)
    (hA : t.amount = A) (hR : t.amount_refunded.getD 0 = R) :
    t.calculate_max_refund (some m) = min m (A - R) ∧
    (m ≤ A - R → t.calculate_max_refund (some m) = m) ∧
    (A - R < m → t.calculate_max_refund (some m) = A - R) := by
  have hbody : t.calculate_max_refund (some m)
      = if m ≤ A - R then m else A - R := by
    simp [Transaction.calculate_max_refund, hA, hR]
  refine ⟨?_, ?_, ?_⟩
  · rw [hbody, min_def]
  · intro h
    rw [hbody, if_pos h]
  · intro h
    rw [hbody, if_neg (not_le.mpr h)]

/-- Witness for C1 at the spec's concrete example: a 500.00 transaction with
no prior refund and a 600.00 request. -/
theorem calculate_max_refund_clamps_witness :
    sampleTx.calculate_max_refund (some 600) = min 600 (500 - 0) ∧
    ((600 : Rat) ≤ 500 - 0 →
      sampleTx.calculate_max_refund (some 600) = 600) ∧
    ((500 : Rat) - 0 < 600 →
      sampleTx.calculate_max_refund (some 600) = 500 - 0) :=
  calculate_max_refund_clamps sampleTx 600 500 0 rfl rfl

/-- Claim C2: on a transaction with no prior refund recorded
(`amount_refunded` is `None`), `calculate_max_refund` with no requested
amount returns the original transaction amount. -/
theorem calculate_max_refund_no_prior_refund (t : Transaction)
    (h : t.amount_refunded = none) :
    t.calculate_max_refund none = t.amount := by
  simp [Transaction.calculate_max_refund, h]

/-- Witness for C2 at the 500.00 transaction of the tests. -/
theorem calculate_max_refund_no_prior_refund_witness :
    sampleTx.calculate_max_refund none = sampleTx.amount :=
  calculate_max_refund_no_prior_refund sampleTx rfl

/-- Overwriting a row during upsert does not change its remote identifier:
the row is replaced only when the identifiers already agree. -/
theorem overwrite_braintree_id (o : BTTransactionObj) (x : Transaction) :
    (if x.braintree_id == o.id then Transaction.fromObj o else x).braintree_id
      = x.braintree_id := by
  by_cases h : x.braintree_id == o.id
  · rw [if_pos h]
    exact (eq_of_beq h).symm
  · rw [if_neg h]

/-- The per-row lookup predicate is unchanged by the upsert's overwrite. -/
theorem overwrite_pred (o : BTTransactionObj) (rid : String) :
    ((fun t : Transaction => t.braintree_id == rid) ∘
      (fun x => if x.braintree_id == o.id then Transaction.fromObj o else x))
      = (fun t : Transaction => t.braintree_id == rid) := by
  funext x
  simp only [Function.comp]
  rw [overwrite_braintree_id]

/-- After an upsert, lookup by the synced remote identifier finds the
mirrored row. -/
theorem upsertTx_find_self (ts : List Transaction) (o : BTTransactionObj) :
    (upsertTx ts o).find? (fun x => x.braintree_id == o.id)
      = some (Transaction.fromObj o) := by
  unfold upsertTx
  cases h : ts.find? (fun x => x.braintree_id == o.id) with
  | some t0 =>
      simp only
      rw [List.find?_map, overwrite_pred, h]
      have ht0 : (t0.braintree_id == o.id) = true := by
        simpa using List.find?_some h
      have hif : (if t0.braintree_id == o.id then Transaction.fromObj o else t0)
          = Transaction.fromObj o := if_pos ht0
      rw [Option.map_some', hif]
  | none =>
      simp only
      rw [List.find?_append, h]
      simp [Transaction.fromObj]

/-- An upsert leaves lookups by any other remote identifier unchanged. -/
theorem upsertTx_find_other (ts : List Transaction) (o : BTTransactionObj)
    (rid : String) (hne : rid ≠ o.id) :
    (upsertTx ts o).find? (fun x => x.braintree_id == rid)
      = ts.find? (fun x => x.braintree_id == rid) := by
  unfold upsertTx
  cases h : ts.find? (fun x => x.braintree_id == o.id) with
  | some t0 =>
      simp only
      rw [List.find?_map, overwrite_pred]
      cases h2 : ts.find? (fun x => x.braintree_id == rid) with
      | none => simp
      | some y =>
          have hy : (y.braintree_id == rid) = true := by
            simpa using List.find?_some h2
          have hyne : (y.braintree_id == o.id) = false := by
            rw [beq_eq_false_iff_ne, eq_of_beq hy]
            exact hne
          have hif : (if y.braintree_id == o.id then Transaction.fromObj o else y)
              = y := by
            rw [if_neg]
            simp [hyne]
          rw [Option.map_some', hif]
  | none =>
      simp only
      rw [List.find?_append]
      have hsingle : [Transaction.fromObj o].find?
          (fun x => x.braintree_id == rid) = none := by
        simp [Transaction.fromObj]
        exact fun hcontra => hne hcontra.symm
      rw [hsingle, Option.or_none]

/-- Every row of an upserted table carrying the synced remote identifier is
exactly the mirrored row. -/
theorem upsertTx_mem_id (ts : List Transaction) (o : BTTransactionObj) :
    ∀ x ∈ upsertTx ts o, (x.braintree_id == o.id) = true →
      x = Transaction.fromObj o := by
  intro x hx hid
  unfold upsertTx at hx
  cases h : ts.find? (fun x => x.braintree_id == o.id) with
  | some t0 =>
      rw [h] at hx
      simp only at hx
      rcases List.mem_map.mp hx with ⟨y, _, hy⟩
      by_cases hyp : y.braintree_id == o.id
      · rw [if_pos hyp] at hy
        exact hy.symm
      · rw [if_neg hyp] at hy
        rw [← hy] at hid
        exact absurd hid (by simpa using hyp)
  | none =>
      rw [h] at hx
      simp only at hx
      rcases List.mem_append.mp hx with hmem | hmem
      · exact absurd hid (by simpa using List.find?_eq_none.mp h x hmem)
      · simpa using hmem

/-- Upserting the same gateway object twice is the same as upserting it
once. -/
theorem upsertTx_idem (ts : List Transaction) (o : BTTransactionObj) :
    upsertTx (upsertTx ts o) o = upsertTx ts o := by
  have hfind := upsertTx_find_self ts o
  have hmem := upsertTx_mem_id ts o
  generalize hl : upsertTx ts o = l at hfind hmem ⊢
  unfold upsertTx
  rw [hfind]
  simp only
  have hpt : ∀ x ∈ l,
      (if x.braintree_id == o.id then Transaction.fromObj o else x) = id x := by
    intro x hx
    by_cases hp : (x.braintree_id == o.id) = true
    · rw [if_pos hp, hmem x hx hp]
      rfl
    · rw [if_neg hp]
      rfl
  rw [List.map_congr_left hpt, List.map_id]

/-- After an upsert there is exactly one row per the synced remote
identifier, provided the table held at most one before. -/
theorem upsertTx_countP_self (ts : List Transaction) (o : BTTransactionObj)
    (h : ts.countP (fun x => x.braintree_id == o.id) ≤ 1) :
    (upsertTx ts o).countP (fun x => x.braintree_id == o.id) = 1 := by
  unfold upsertTx
  cases hf : ts.find? (fun x => x.braintree_id == o.id) with
  | some t0 =>
      simp only
      rw [List.countP_map, overwrite_pred]
      have hpos : 0 < ts.countP (fun x => x.braintree_id == o.id) := by
        rw [List.countP_pos_iff]
        refine ⟨t0, List.mem_of_find?_eq_some hf, ?_⟩
        simpa using List.find?_some hf
      omega
  | none =>
      simp only
      rw [List.countP_append]
      have h0 : ts.countP (fun x => x.braintree_id == o.id) = 0 :=
        List.countP_eq_zero.mpr (List.find?_eq_none.mp hf)
      have h1 : [Transaction.fromObj o].countP
          (fun x => x.braintree_id == o.id) = 1 := by
        simp [List.countP, List.countP.go, Transaction.fromObj]
      rw [h0, h1]

/-- Customer resolution when a row with the remote identifier exists:
nothing is created and the existing row is returned. -/
theorem resolveCustomer_of_found (cs : List Customer) (o : BTCustomerObj)
    (c : Customer) (h : cs.find? (fun c => c.braintree_id == o.id) = some c) :
    resolveCustomer cs o = (cs, c) := by
  unfold resolveCustomer
  rw [h]

/-- Customer resolution when no row with the remote identifier exists:
exactly one row with the mirrored fields is appended and returned. -/
theorem resolveCustomer_of_absent (cs : List Customer) (o : BTCustomerObj)
    (h : cs.find? (fun c => c.braintree_id == o.id) = none) :
    resolveCustomer cs o = (cs ++ [Customer.fromObj o], Customer.fromObj o) := by
  unfold resolveCustomer
  rw [h]

/-- After customer resolution, lookup by the remote identifier finds the
returned row. -/
theorem resolveCustomer_find_self (cs : List Customer) (o : BTCustomerObj) :
    (resolveCustomer cs o).1.find? (fun c => c.braintree_id == o.id)
      = some (resolveCustomer cs o).2 := by
  cases h : cs.find? (fun c => c.braintree_id == o.id) with
  | some c =>
      rw [resolveCustomer_of_found cs o c h]
      exact h
  | none =>
      rw [resolveCustomer_of_absent cs o h]
      simp only
      rw [List.find?_append, h]
      simp [Customer.fromObj]

/-- Resolving the same customer object twice changes nothing the second
time. -/
theorem resolveCustomer_idem (cs : List Customer) (o : BTCustomerObj) :
    resolveCustomer (resolveCustomer cs o).1 o
      = ((resolveCustomer cs o).1, (resolveCustomer cs o).2) :=
  resolveCustomer_of_found _ _ _ (resolveCustomer_find_self cs o)

/-- Claim C3: syncing the same gateway transaction object twice yields the
same stored state and the same returned row as syncing it once, and (when
the store starts with at most one row per that remote identifier, the
uniqueness invariant) the store afterwards holds exactly one row for it. -/
theorem sync_from_braintree_object_idempotent (db : DB) (o : BTTransactionObj)
    (h : db.transactions.countP (fun x => x.braintree_id == o.id) ≤ 1) :
    sync_from_braintree_object (sync_from_braintree_object db o).1 o
      = sync_from_braintree_object db o ∧
    ((sync_from_braintree_object db o).1).transactions.countP
      (fun x => x.braintree_id == o.id) = 1 := by
  constructor
  · have hc := resolveCustomer_idem db.customers o.customer
    have ht := upsertTx_idem db.transactions o
    show ((⟨(resolveCustomer
          ((resolveCustomer db.customers o.customer).1) o.customer).1,
        upsertTx (upsertTx db.transactions o) o⟩ : DB),
      Transaction.fromObj o)
      = ((⟨(resolveCustomer db.customers o.customer).1,
        upsertTx db.transactions o⟩ : DB), Transaction.fromObj o)
    rw [ht, hc]
  · show (upsertTx db.transactions o).countP
        (fun x => x.braintree_id == o.id) = 1
    exact upsertTx_countP_self db.transactions o h

/-- The gateway customer object of
`test_sync_from_braintree_creates_customer`: remote identifier
`newcustomer_YYY`, first name `Newman`. -/
def newmanObj : BTCustomerObj :=
  { id := "newcustomer_YYY"
    first_name := some "Newman"
    last_name := none
    email := none }

/-- A gateway transaction object like the tests' fake success transaction:
remote identifier `d5y99n`, amount 10.00, a sale. -/
def fakeTxObj : BTTransactionObj :=
  { id := "d5y99n"
    amount := 10
    transaction_type := "sale"
    status := some "authorized"
    amount_refunded := none
    escrow_status := none
    customer := newmanObj }

/-- The empty record store. -/
def emptyDB : DB := { customers := [], transactions := [] }

/-- The saved customer row of the tests' `setUp`. -/
def savedCustomer : Customer :=
  { braintree_id := "cus_xxxxxxxxxxxxxxx"
    entity := some 1
    first_name := none
    last_name := none
    email := some "patrick@gmail.com" }

/-- A store already holding the saved customer row. -/
def dbWithSavedCustomer : DB :=
  { customers := [savedCustomer], transactions := [] }

/-- A gateway transaction object whose embedded customer carries the saved
customer's remote identifier. -/
def fakeTxObjKnown : BTTransactionObj :=
  { fakeTxObj with customer := { newmanObj with id := "cus_xxxxxxxxxxxxxxx" } }

/-- Witness for C3: syncing the fake transaction twice into the empty
store. -/
theorem sync_from_braintree_object_idempotent_witness :
    emptyDB.transactions.countP
        (fun x => x.braintree_id == fakeTxObj.id) ≤ 1 ∧
    (sync_from_braintree_object
          (sync_from_braintree_object emptyDB fakeTxObj).1 fakeTxObj
        = sync_from_braintree_object emptyDB fakeTxObj ∧
      ((sync_from_braintree_object emptyDB fakeTxObj).1).transactions.countP
        (fun x => x.braintree_id == fakeTxObj.id) = 1) :=
  ⟨by decide,
    sync_from_braintree_object_idempotent emptyDB fakeTxObj (by decide)⟩

/-- Claim C5: syncing a transaction whose embedded customer remote
identifier is unknown locally appends exactly one new `Customer` row with
the mirrored fields, links the synced transaction row to that identifier,
and the link resolves — it is not dangling. -/
theorem sync_creates_customer (db : DB) (o : BTTransactionObj)
    (h : db.findCustomer o.customer.id = none) :
    ((sync_from_braintree_object db o).1).customers
      = db.customers ++ [Customer.fromObj o.customer] ∧
    (sync_from_braintree_object db o).2.customer_id
      = some o.customer.id ∧
    ((sync_from_braintree_object db o).1).findCustomer o.customer.id
      = some (Customer.fromObj o.customer) := by
  have h' : db.customers.find?
      (fun c => c.braintree_id == o.customer.id) = none := h
  have habs := resolveCustomer_of_absent db.customers o.customer h'
  refine ⟨?_, rfl, ?_⟩
  · show (resolveCustomer db.customers o.customer).1 = _
    rw [habs]
  · show ((resolveCustomer db.customers o.customer).1).find?
        (fun c => c.braintree_id == o.customer.id)
      = some (Customer.fromObj o.customer)
    rw [habs]
    simp only
    rw [List.find?_append, h']
    simp [Customer.fromObj]

/-- Witness for C5: syncing the fake transaction with the unknown customer
`newcustomer_YYY` into the empty store. -/
theorem sync_creates_customer_witness :
    emptyDB.findCustomer fakeTxObj.customer.id = none ∧
    (((sync_from_braintree_object emptyDB fakeTxObj).1).customers
        = emptyDB.customers ++ [Customer.fromObj fakeTxObj.customer] ∧
      (sync_from_braintree_object emptyDB fakeTxObj).2.customer_id
        = some fakeTxObj.customer.id ∧
      ((sync_from_braintree_object emptyDB fakeTxObj).1).findCustomer
          fakeTxObj.customer.id
        = some (Customer.fromObj fakeTxObj.customer)) :=
  ⟨rfl, sync_creates_customer emptyDB fakeTxObj rfl⟩

/-- Claim C6: syncing a transaction whose embedded customer remote
identifier matches an existing local `Customer` row leaves the customer
table unchanged (no duplicate row) and links the synced transaction row to
that existing row's remote identifier. -/
theorem sync_links_existing_customer (db : DB) (o : BTTransactionObj)
    (c : Customer) (h : db.findCustomer o.customer.id = some c) :
    ((sync_from_braintree_object db o).1).customers = db.customers ∧
    (sync_from_braintree_object db o).2.customer_id
      = some c.braintree_id := by
  have h' : db.customers.find?
      (fun c => c.braintree_id == o.customer.id) = some c := h
  have hfound := resolveCustomer_of_found db.customers o.customer c h'
  have hc : c.braintree_id = o.customer.id := by
    simpa using List.find?_some h'
  refine ⟨?_, ?_⟩
  · show (resolveCustomer db.customers o.customer).1 = db.customers
    rw [hfound]
  · show some o.customer.id = some c.braintree_id
    rw [hc]

/-- Witness for C6: syncing the transaction that references the saved
customer into the store already holding that customer. -/
theorem sync_links_existing_customer_witness :
    dbWithSavedCustomer.findCustomer fakeTxObjKnown.customer.id
      = some savedCustomer ∧
    (((sync_from_braintree_object dbWithSavedCustomer fakeTxObjKnown).1).customers
        = dbWithSavedCustomer.customers ∧
      (sync_from_braintree_object dbWithSavedCustomer fakeTxObjKnown).2.customer_id
        = some savedCustomer.braintree_id) :=
  ⟨by decide,
    sync_links_existing_customer dbWithSavedCustomer fakeTxObjKnown
      savedCustomer (by decide)⟩

/-- A gateway-reported failure — a network error or a vendor-reported
decline/validation error — carried back to the caller. -/
structure GatewayError where
  message : String
  deriving DecidableEq, Repr

/-- Modelled from the spec: the shared shape of the single-object action
methods (spec 4.3) — capture, void and the escrow transitions each invoke
their gateway operation and, on success, sync the returned object; on
failure the gateway's error is surfaced and the store is untouched. The
gateway response is the explicit argument `resp`. -/
def gatewayActionSync (resp : Except GatewayError BTTransactionObj)
    (db : DB) : Except GatewayError Transaction × DB :=
  match resp with
  | .error e => (.error e, db)
  | .ok o =>
      let s := sync_from_braintree_object db o
      (.ok s.2, s.1)

/-- Modelled from the spec: `capture` — submit the transaction for
settlement at the gateway, then sync the returned object (4.3). -/
def Transaction.capture (t : Transaction)
    (resp : Except GatewayError BTTransactionObj) (db : DB) :
    Except GatewayError Transaction × DB :=
  gatewayActionSync resp db

/-- Modelled from the spec: `void` — void the transaction at the gateway,
then sync the returned object (4.3). -/
def Transaction.void (t : Transaction)
    (resp : Except GatewayError BTTransactionObj) (db : DB) :
    Except GatewayError Transaction × DB :=
  gatewayActionSync resp db

/-- Modelled from the spec: `hold_in_escrow`, then sync the returned
object (4.3). -/
def Transaction.hold_in_escrow (t : Transaction)
    (resp : Except GatewayError BTTransactionObj) (db : DB) :
    Except GatewayError Transaction × DB :=
  gatewayActionSync resp db

/-- Modelled from the spec: `release_from_escrow`, then sync the returned
object (4.3). -/
def Transaction.release_from_escrow (t : Transaction)
    (resp : Except GatewayError BTTransactionObj) (db : DB) :
    Except GatewayError Transaction × DB :=
  gatewayActionSync resp db

/-- Modelled from the spec: `cancel_release`, then sync the returned
object (4.3). -/
def Transaction.cancel_release (t : Transaction)
    (resp : Except GatewayError BTTransactionObj) (db : DB) :
    Except GatewayError Transaction × DB :=
  gatewayActionSync resp db

/-- Modelled from the spec: the `refund` action method (4.3). The amount
eligible per 4.2 is sent to the gateway refund operation (the function
argument `gw`); on success both returned objects — the updated original and
the new credit transaction — are synced in order; on failure the gateway's
error is surfaced and the store is untouched. -/
def Transaction.refund (t : Transaction) (amount : Option Rat)
    (gw : Rat → Except GatewayError (BTTransactionObj × BTTransactionObj))
    (db : DB) : Except GatewayError (Transaction × Transaction) × DB :=
  match gw (t.calculate_max_refund amount) with
  | .error e => (.error e, db)
  | .ok (o1, o2) =>
      let s1 := sync_from_braintree_object db o1
      let s2 := sync_from_braintree_object s1.1 o2
      (.ok (s1.2, s2.2), s2.1)

/-- Modelled from the spec: the shape of a successful gateway refund
response (4.3: "a refund call may yield two objects (the updated original
and a new credit transaction)") — the original object with
`amount_refunded` set to the refunded amount, and a new credit transaction
object of that amount under a fresh remote identifier. -/
def refund_success_response (orig : BTTransactionObj) (r : Rat)
    (creditId : String) : BTTransactionObj × BTTransactionObj :=
  ({ orig with amount_refunded := some r },
   { orig with
      id := creditId
      amount := r
      transaction_type := "credit"
      amount_refunded := none })

/-- Claim C7: on gateway failure every action method — capture, refund,
void, hold_in_escrow, release_from_escrow, cancel_release — returns the
gateway's error to the caller unchanged and leaves the local store exactly
as it was before the call. -/
theorem action_methods_error_atomic (db : DB) (t : Transaction)
    (amount : Option Rat) (e : GatewayError) :
    t.capture (.error e) db = (.error e, db) ∧
    t.refund amount (fun _ => .error e) db = (.error e, db) ∧
    t.void (.error e) db = (.error e, db) ∧
    t.hold_in_escrow (.error e) db = (.error e, db) ∧
    t.release_from_escrow (.error e) db = (.error e, db) ∧
    t.cancel_release (.error e) db = (.error e, db) :=
  ⟨rfl, rfl, rfl, rfl, rfl, rfl⟩

/-- An upsert that overwrites an existing row does not change the number of
rows. -/
theorem upsertTx_length_present (ts : List Transaction)
    (o : BTTransactionObj)
    (h : (ts.find? (fun x => x.braintree_id == o.id)).isSome) :
    (upsertTx ts o).length = ts.length := by
  unfold upsertTx
  cases hf : ts.find? (fun x => x.braintree_id == o.id) with
  | some t0 => simp
  | none => rw [hf] at h; simp at h

/-- An upsert that creates a row adds exactly one. -/
theorem upsertTx_length_absent (ts : List Transaction)
    (o : BTTransactionObj)
    (h : ts.find? (fun x => x.braintree_id == o.id) = none) :
    (upsertTx ts o).length = ts.length + 1 := by
  unfold upsertTx
  rw [h]
  simp

/-- Claim C4: a successful refund of eligible amount `r` on a sale
transaction updates the original row — `amount_refunded` becomes `r` while
`transaction_type` stays `"sale"` — and creates a second, distinct local
row of `transaction_type` `"credit"` and amount `r` under the fresh credit
remote identifier, growing the table by exactly one row. -/
theorem refund_creates_credit_row (db : DB) (t : Transaction)
    (orig : BTTransactionObj) (r : Rat) (amount : Option Rat)
    (creditId : String)
    (hid : orig.id = t.braintree_id)
    (htype : orig.transaction_type = "sale")
    (hr : t.calculate_max_refund amount = r)
    (hpresent : (db.findTransaction t.braintree_id).isSome)
    (hfresh : db.findTransaction creditId = none)
    (hne : creditId ≠ t.braintree_id) :
    (∃ t1, ((t.refund amount
        (fun a => .ok (refund_success_response orig a creditId)) db).2).findTransaction
          t.braintree_id = some t1 ∧
      t1.amount_refunded = some r ∧ t1.transaction_type = "sale") ∧
    (∃ t2, ((t.refund amount
        (fun a => .ok (refund_success_response orig a creditId)) db).2).findTransaction
          creditId = some t2 ∧
      t2.transaction_type = "credit" ∧ t2.amount = r) ∧
    ((t.refund amount
        (fun a => .ok (refund_success_response orig a creditId)) db).2).transactions.length
      = db.transactions.length + 1 := by
  have hresult : (t.refund amount
      (fun a => .ok (refund_success_response orig a creditId)) db).2
      = (sync_from_braintree_object
          (sync_from_braintree_object db
            { orig with amount_refunded := some r }).1
          { orig with
              id := creditId
              amount := r
              transaction_type := "credit"
              amount_refunded := none }).1 := by
    unfold Transaction.refund
    rw [hr]
    rfl
  rw [hresult]
  set o1 : BTTransactionObj := { orig with amount_refunded := some r }
  set o2 : BTTransactionObj := { orig with
      id := creditId
      amount := r
      transaction_type := "credit"
      amount_refunded := none }
  have ho1id : o1.id = t.braintree_id := hid
  have ho2id : o2.id = creditId := rfl
  have hts2 : ((sync_from_braintree_object
      (sync_from_braintree_object db o1).1 o2).1).transactions
      = upsertTx (upsertTx db.transactions o1) o2 := rfl
  refine ⟨⟨Transaction.fromObj o1, ?_, rfl, htype⟩,
    ⟨Transaction.fromObj o2, ?_, rfl, rfl⟩, ?_⟩
  · show (upsertTx (upsertTx db.transactions o1) o2).find?
        (fun x => x.braintree_id == t.braintree_id)
      = some (Transaction.fromObj o1)
    rw [upsertTx_find_other _ _ _ (show t.braintree_id ≠ o2.id from
      ho2id ▸ Ne.symm hne)]
    rw [← ho1id]
    exact upsertTx_find_self db.transactions o1
  · show (upsertTx (upsertTx db.transactions o1) o2).find?
        (fun x => x.braintree_id == creditId)
      = some (Transaction.fromObj o2)
    rw [← ho2id]
    exact upsertTx_find_self _ o2
  · show (upsertTx (upsertTx db.transactions o1) o2).length
      = db.transactions.length + 1
    have habs2 : (upsertTx db.transactions o1).find?
        (fun x => x.braintree_id == o2.id) = none := by
      rw [upsertTx_find_other _ _ _ (by rw [ho1id]; exact ho2id ▸ hne)]
      exact hfresh
    rw [upsertTx_length_absent _ _ habs2,
      upsertTx_length_present _ _ (by rw [ho1id]; exact hpresent)]

/-- The original sale row of `test_refund_transaction`: remote identifier
`tx_XXXXXX`, amount 10.00, no prior refund. -/
def saleTx : Transaction :=
  { braintree_id := "tx_XXXXXX"
    customer_id := some "cus_xxxxxxxxxxxxxxx"
    amount := 10
    transaction_type := "sale"
    status := some "authorized"
    amount_refunded := none
    escrow_status := none }

/-- The gateway object for the sale row, as the gateway find returns it in
the refund tests. -/
def saleTxObj : BTTransactionObj :=
  { id := "tx_XXXXXX"
    amount := 10
    transaction_type := "sale"
    status := some "authorized"
    amount_refunded := none
    escrow_status := none
    customer :=
      { id := "cus_xxxxxxxxxxxxxxx"
        first_name := none
        last_name := none
        email := none } }

/-- A store holding the saved customer and the sale row. -/
def dbWithSale : DB :=
  { customers := [savedCustomer], transactions := [saleTx] }

/-- Witness for C4: refunding the 10.00 sale by 8.00, the credit row
landing under `d5y99n`, as in `test_refund_transaction_passes_extra_args`. -/
theorem refund_creates_credit_row_witness :
    (∃ t1, ((saleTx.refund (some 8)
        (fun a => .ok (refund_success_response saleTxObj a "d5y99n"))
        dbWithSale).2).findTransaction saleTx.braintree_id = some t1 ∧
      t1.amount_refunded = some 8 ∧ t1.transaction_type = "sale") ∧
    (∃ t2, ((saleTx.refund (some 8)
        (fun a => .ok (refund_success_response saleTxObj a "d5y99n"))
        dbWithSale).2).findTransaction "d5y99n" = some t2 ∧
      t2.transaction_type = "credit" ∧ t2.amount = 8) ∧
    ((saleTx.refund (some 8)
        (fun a => .ok (refund_success_response saleTxObj a "d5y99n"))
        dbWithSale).2).transactions.length
      = dbWithSale.transactions.length + 1 :=
  refund_creates_credit_row dbWithSale saleTx saleTxObj 8 (some 8) "d5y99n"
    rfl rfl
    (by simp [Transaction.calculate_max_refund, saleTx]
        decide)
    (by decide) (by decide) (by decide)

/-- An owning entity — the payer-model row the `Customer.entity` one-to-one
field points at (`DJBRAINTREE_PAYER_MODEL` / `AUTH_USER_MODEL`): an opaque
key and the `email` attribute `Customer.create` reads as its default. -/
structure Entity where
  id : Nat
  email : String
  deriving DecidableEq, Repr

/-- Extra keyword arguments forwarded to the gateway create call, as an
association list (Python keyword arguments carry each key once). -/
def Kwargs : Type := List (String × String)

/-- Python's `kwargs.pop(key, default)`: the value at the key (or the
default when the key is absent) paired with the arguments less that key. -/
def Kwargs.pop (kw : List (String × String)) (key : String)
    (dflt : String) : String × List (String × String) :=
  match kw.find? (fun p => p.1 == key) with
  | some p => (p.2, kw.filter (fun q => q.1 != key))
  | none => (dflt, kw)

/-- A customer-create request sent to the gateway
(`cls.api().create(dict(email=email, **kwargs))`): the resolved email and
the remaining pass-through keyword arguments. -/
structure GatewayCall where
  email : String
  extra : List (String × String)
  deriving DecidableEq, Repr

/-- A storage-layer error: the uniqueness constraint on the remote
identifier, or on the one-to-one entity field, rejected a duplicate row. -/
inductive StoreError where
  | uniquenessViolation
  deriving DecidableEq, Repr

/-- `Customer.objects.create`: inserts a row, surfacing a uniqueness
violation from the storage layer when a row with the same remote
identifier, or the same non-null owning entity, already exists. -/
def DB.insertCustomer (db : DB) (c : Customer) : Except StoreError DB :=
  if db.customers.any (fun x => x.braintree_id == c.braintree_id) then
    .error .uniquenessViolation
  else if c.entity.isSome && db.customers.any (fun x => x.entity == c.entity) then
    .error .uniquenessViolation
  else
    .ok { db with customers := db.customers ++ [c] }

/-- The gateway request `Customer.create` builds:
`dict(email=kwargs.pop('email', entity.email), **kwargs)`. -/
def Customer.createRequest (entity : Entity)
    (kwargs : List (String × String)) : GatewayCall :=
  { email := (Kwargs.pop kwargs "email" entity.email).1
    extra := (Kwargs.pop kwargs "email" entity.email).2 }

/-- `Customer.create` from `src/djbraintree/models.py`:
`email = kwargs.pop('email', entity.email)`; the gateway customer is created
from `dict(email=email, **kwargs)`; the created object's mirrored fields and
`entity=entity` become a new local row via `Customer.objects.create`. The
gateway adapter (`cls.api().create` composed with
`extract_object_from_result`) is the function argument `api`; the requests
actually issued to it are returned alongside as a log, so a theorem can
state which request was sent, or that none was. -/
def Customer.create (api : GatewayCall → BTCustomerObj) (db : DB)
    (entity : Entity) (kwargs : List (String × String)) :
    Except StoreError (DB × Customer) × List GatewayCall :=
  let req : GatewayCall := Customer.createRequest entity kwargs
  let obj := api req
  let c : Customer :=
    { braintree_id := obj.id
      entity := some entity.id
      first_name := obj.first_name
      last_name := obj.last_name
      email := obj.email }
  match db.insertCustomer c with
  | .error e => (.error e, [req])
  | .ok db2 => (.ok (db2, c), [req])

/-- `Customer.get_or_create` from `src/djbraintree/models.py`: try
`Customer.objects.get(entity=entity)` and return it with created-flag
`False`; on `Customer.DoesNotExist` fall through to
`cls.create(entity, **kwargs)` with created-flag `True`. The lookup by
owning entity is the `find?`; the `DoesNotExist` branch is its `none`
case. -/
def Customer.get_or_create (api : GatewayCall → BTCustomerObj) (db : DB)
    (entity : Entity) (kwargs : List (String × String)) :
    Except StoreError (DB × Customer × Bool) × List GatewayCall :=
  match db.customers.find? (fun c => c.entity == some entity.id) with
  | some c => (.ok (db, c, false), [])
  | none =>
      match Customer.create api db entity kwargs with
      | (.error e, calls) => (.error e, calls)
      | (.ok (db2, c), calls) => (.ok (db2, c, true), calls)

/-- The request `Customer.create` sends to the gateway is exactly the one
`kwargs.pop('email', entity.email)` determines, and it is the only call. -/
theorem create_calls (api : GatewayCall → BTCustomerObj) (db : DB)
    (entity : Entity) (kwargs : List (String × String)) :
    (Customer.create api db entity kwargs).2
      = [{ email := (Kwargs.pop kwargs "email" entity.email).1,
           extra := (Kwargs.pop kwargs "email" entity.email).2 }] := by
  simp only [Customer.create]
  split <;> rfl

/-- Claim C10: `Customer.create(entity, **kwargs)` resolves the gateway
request's email with `kwargs.pop('email', entity.email)`: a supplied
`email` keyword becomes the request's email and is removed from the
pass-through arguments; with no `email` keyword the owning entity's `email`
attribute is the default and the arguments pass through unchanged. -/
theorem create_email_kwarg (api : GatewayCall → BTCustomerObj) (db : DB)
    (entity : Entity) (kwargs : List (String × String)) :
    (∀ p, kwargs.find? (fun q => q.1 == "email") = some p →
      (Customer.create api db entity kwargs).2
        = [{ email := p.2, extra := kwargs.filter (fun q => q.1 != "email") }]) ∧
    (kwargs.find? (fun q => q.1 == "email") = none →
      (Customer.create api db entity kwargs).2
        = [{ email := entity.email, extra := kwargs }]) := by
  constructor
  · intro p hp
    rw [create_calls]
    unfold Kwargs.pop
    rw [hp]
  · intro hnone
    rw [create_calls]
    unfold Kwargs.pop
    rw [hnone]

/-- A stub gateway adapter used by witnesses: it returns a created remote
object under the fresh identifier `cus_NEW`, echoing the request's email. -/
def api0 : GatewayCall → BTCustomerObj :=
  fun req =>
    { id := "cus_NEW"
      first_name := none
      last_name := none
      email := some req.email }

/-- The entity of the tests' `setUp`: the user `patrick`. -/
def patrick : Entity := { id := 1, email := "patrick@gmail.com" }

/-- Witness for C10: creating with `kwargs = [("email", "bob@x.com"),
("company", "ACME")]` for an entity whose own email is
`patrick@gmail.com`. -/
theorem create_email_kwarg_witness :
    [("email", "bob@x.com"), ("company", "ACME")].find?
        (fun q => q.1 == "email") = some ("email", "bob@x.com") ∧
    (Customer.create api0 emptyDB patrick
        [("email", "bob@x.com"), ("company", "ACME")]).2
      = [{ email := "bob@x.com",
           extra := [("email", "bob@x.com"), ("company", "ACME")].filter
             (fun q => q.1 != "email") }] :=
  ⟨by decide,
    (create_email_kwarg api0 emptyDB patrick
      [("email", "bob@x.com"), ("company", "ACME")]).1
      ("email", "bob@x.com") (by decide)⟩

/-- Claim C9: when a `Customer` row for the owning entity exists,
`get_or_create` returns it with created-flag `False` and issues no gateway
call; when the local lookup finds no row (`DoesNotExist`), the create path
is taken — the result is exactly `Customer.create`'s result with
created-flag `True` and its single gateway call — so the lookup miss itself
is never surfaced as an error to the caller. -/
theorem get_or_create_paths (api : GatewayCall → BTCustomerObj) (db : DB)
    (entity : Entity) (kwargs : List (String × String)) :
    (∀ c, db.customers.find? (fun c => c.entity == some entity.id) = some c →
      Customer.get_or_create api db entity kwargs
        = (.ok (db, c, false), [])) ∧
    (db.customers.find? (fun c => c.entity == some entity.id) = none →
      Customer.get_or_create api db entity kwargs
        = ((Customer.create api db entity kwargs).1.map
            (fun p => (p.1, p.2, true)),
          (Customer.create api db entity kwargs).2) ∧
      ((Customer.create api db entity kwargs).1.isOk →
        (Customer.get_or_create api db entity kwargs).1.isOk) ∧
      (Customer.get_or_create api db entity kwargs).2.length = 1) := by
  constructor
  · intro c hc
    unfold Customer.get_or_create
    rw [hc]
  · intro hnone
    have hmain : Customer.get_or_create api db entity kwargs
        = ((Customer.create api db entity kwargs).1.map
            (fun p => (p.1, p.2, true)),
          (Customer.create api db entity kwargs).2) := by
      unfold Customer.get_or_create
      rw [hnone]
      cases hcr : Customer.create api db entity kwargs with
      | mk res calls =>
          cases res with
          | error e => rfl
          | ok p => rfl
    refine ⟨hmain, ?_, ?_⟩
    · intro hok
      rw [hmain]
      cases hres : (Customer.create api db entity kwargs).1 with
      | error e => rw [hres] at hok; cases hok
      | ok p => rfl
    · rw [hmain, create_calls]
      rfl

/-- Witness for C9 (both paths): the existing-row path at the saved
customer, and the create path on the empty store with a stub gateway. -/
theorem get_or_create_paths_witness :
    (dbWithSavedCustomer.customers.find?
        (fun c => c.entity == some patrick.id) = some savedCustomer ∧
      Customer.get_or_create api0 dbWithSavedCustomer patrick []
        = (.ok (dbWithSavedCustomer, savedCustomer, false), [])) ∧
    (emptyDB.customers.find?
        (fun c => c.entity == some patrick.id) = none ∧
      (Customer.get_or_create api0 emptyDB patrick []).2.length = 1) :=
  ⟨⟨by decide,
    (get_or_create_paths api0 dbWithSavedCustomer patrick []).1
      savedCustomer (by decide)⟩,
   ⟨by decide,
    ((get_or_create_paths api0 emptyDB patrick []).2 (by decide)).2.2⟩⟩

/-- The storage-layer uniqueness invariants: at most one `Customer` row per
remote identifier, at most one `Customer` row per (non-null) owning entity,
and at most one `Transaction` row per remote identifier. -/
def DB.Invariant (db : DB) : Prop :=
  db.customers.Pairwise (fun a b => a.braintree_id ≠ b.braintree_id) ∧
  db.customers.Pairwise (fun a b => a.entity = none ∨ a.entity ≠ b.entity) ∧
  db.transactions.Pairwise (fun a b => a.braintree_id ≠ b.braintree_id)

/-- Customer resolution during sync preserves both customer uniqueness
invariants: the only row it can add carries a locally-unknown remote
identifier and a null owning entity. -/
theorem resolveCustomer_pairwise (cs : List Customer) (o : BTCustomerObj)
    (h1 : cs.Pairwise (fun a b => a.braintree_id ≠ b.braintree_id))
    (h2 : cs.Pairwise (fun a b => a.entity = none ∨ a.entity ≠ b.entity)) :
    (resolveCustomer cs o).1.Pairwise
      (fun a b => a.braintree_id ≠ b.braintree_id) ∧
    (resolveCustomer cs o).1.Pairwise
      (fun a b => a.entity = none ∨ a.entity ≠ b.entity) := by
  cases hf : cs.find? (fun c => c.braintree_id == o.id) with
  | some c =>
      rw [resolveCustomer_of_found cs o c hf]
      exact ⟨h1, h2⟩
  | none =>
      rw [resolveCustomer_of_absent cs o hf]
      simp only
      constructor
      · rw [List.pairwise_append]
        refine ⟨h1, by simp, ?_⟩
        intro a ha b hb
        have hb' : b = Customer.fromObj o := by simpa using hb
        subst hb'
        intro hcontra
        exact List.find?_eq_none.mp hf a ha
          (by simpa [Customer.fromObj] using hcontra)
      · rw [List.pairwise_append]
        refine ⟨h2, by simp, ?_⟩
        intro a ha b hb
        cases hae : a.entity with
        | none => exact Or.inl rfl
        | some k =>
            right
            have hb' : b = Customer.fromObj o := by simpa using hb
            subst hb'
            simp [Customer.fromObj]


/-- The transaction upsert preserves the per-remote-identifier uniqueness
of the transaction table: overwriting keeps every identifier in place, and
a row is only appended when its identifier is absent. -/
theorem upsertTx_pairwise (ts : List Transaction) (o : BTTransactionObj)
    (h : ts.Pairwise (fun a b => a.braintree_id ≠ b.braintree_id)) :
    (upsertTx ts o).Pairwise
      (fun a b => a.braintree_id ≠ b.braintree_id) := by
  unfold upsertTx
  cases hf : ts.find? (fun x => x.braintree_id == o.id) with
  | some t0 =>
      simp only
      rw [List.pairwise_map]
      refine List.Pairwise.imp ?_ h
      intro a b hab
      rw [overwrite_braintree_id, overwrite_braintree_id]
      exact hab
  | none =>
      simp only
      rw [List.pairwise_append]
      refine ⟨h, by simp, ?_⟩
      intro a ha b hb
      have hb' : b = Transaction.fromObj o := by simpa using hb
      subst hb'
      intro hcontra
      exact List.find?_eq_none.mp hf a ha
        (by simpa [Transaction.fromObj] using hcontra)

/-- Syncing a gateway transaction object preserves all three uniqueness
invariants. -/
theorem sync_invariant (db : DB) (o : BTTransactionObj)
    (h : db.Invariant) : ((sync_from_braintree_object db o).1).Invariant := by
  obtain ⟨h1, h2, h3⟩ := h
  obtain ⟨g1, g2⟩ := resolveCustomer_pairwise db.customers o.customer h1 h2
  exact ⟨g1, g2, upsertTx_pairwise db.transactions o h3⟩

/-- A storage-layer insert that succeeds preserves all three uniqueness
invariants: its guards reject a duplicate remote identifier and a duplicate
non-null owning entity. -/
theorem insertCustomer_invariant (db : DB) (c : Customer) (db2 : DB)
    (hinv : db.Invariant) (h : db.insertCustomer c = .ok db2) :
    db2.Invariant := by
  obtain ⟨h1, h2, h3⟩ := hinv
  unfold DB.insertCustomer at h
  by_cases hid : db.customers.any
      (fun x => x.braintree_id == c.braintree_id) = true
  · rw [if_pos hid] at h
    cases h
  · rw [if_neg hid] at h
    by_cases hent : (c.entity.isSome && db.customers.any
        (fun x => x.entity == c.entity)) = true
    · rw [if_pos hent] at h
      cases h
    · rw [if_neg hent] at h
      injection h with h
      subst h
      refine ⟨?_, ?_, h3⟩
      · rw [List.pairwise_append]
        refine ⟨h1, by simp, ?_⟩
        intro a ha b hb
        have hb' : b = c := by simpa using hb
        subst hb'
        intro hcontra
        exact hid (List.any_eq_true.mpr ⟨a, ha, by simpa using hcontra⟩)
      · rw [List.pairwise_append]
        refine ⟨h2, by simp, ?_⟩
        intro a ha b hb
        have hb' : b = c := by simpa using hb
        subst hb'
        cases hae : a.entity with
        | none => exact Or.inl rfl
        | some k =>
            right
            intro hcontra
            apply hent
            rw [Bool.and_eq_true]
            constructor
            · rw [← hcontra]
              rfl
            · exact List.any_eq_true.mpr
                ⟨a, ha, by simp [hae, ← hcontra]⟩

/-- A successful `Customer.create` preserves all three uniqueness
invariants. -/
theorem create_invariant (api : GatewayCall → BTCustomerObj) (db : DB)
    (entity : Entity) (kwargs : List (String × String)) (db2 : DB)
    (c : Customer) (calls : List GatewayCall) (hinv : db.Invariant)
    (h : Customer.create api db entity kwargs = (.ok (db2, c), calls)) :
    db2.Invariant := by
  simp only [Customer.create] at h
  split at h
  · injection h with h h2
    cases h
  · next db3 heq =>
      injection h with h h2
      injection h with h
      injection h with hdb hc
      rw [← hdb]
      exact insertCustomer_invariant db _ db3 hinv heq

/-- A successful `Customer.get_or_create` preserves all three uniqueness
invariants. -/
theorem get_or_create_invariant (api : GatewayCall → BTCustomerObj)
    (db : DB) (entity : Entity) (kwargs : List (String × String)) (db2 : DB)
    (c : Customer) (b : Bool) (calls : List GatewayCall)
    (hinv : db.Invariant)
    (h : Customer.get_or_create api db entity kwargs
      = (.ok (db2, c, b), calls)) : db2.Invariant := by
  unfold Customer.get_or_create at h
  split at h
  · injection h with h h2
    injection h with h
    injection h with hdb hrest
    rw [← hdb]
    exact hinv
  · split at h
    · injection h with h h2
      cases h
    · next db3 c3 calls3 heq =>
        injection h with h h2
        injection h with h
        injection h with hdb hrest
        rw [← hdb]
        exact create_invariant api db entity kwargs db3 c3 calls3 hinv heq

/-- A single-object action (capture, void, an escrow transition) preserves
all three uniqueness invariants: on error the store is untouched, on
success the post-sync is an upsert. -/
theorem gatewayActionSync_invariant (db : DB)
    (resp : Except GatewayError BTTransactionObj)
    (r : Except GatewayError Transaction) (db2 : DB)
    (hinv : db.Invariant) (h : gatewayActionSync resp db = (r, db2)) :
    db2.Invariant := by
  cases resp with
  | error e =>
      simp only [gatewayActionSync] at h
      injection h with h1 h2
      rw [← h2]
      exact hinv
  | ok o =>
      simp only [gatewayActionSync] at h
      injection h with h1 h2
      rw [← h2]
      exact sync_invariant db o hinv

/-- A refund preserves all three uniqueness invariants: on error the store
is untouched, on success the post-sync is two upserts. -/
theorem refund_invariant (db : DB) (t : Transaction) (amount : Option Rat)
    (gw : Rat → Except GatewayError (BTTransactionObj × BTTransactionObj))
    (res : Except GatewayError (Transaction × Transaction)) (db2 : DB)
    (hinv : db.Invariant) (h : t.refund amount gw db = (res, db2)) :
    db2.Invariant := by
  cases hgw : gw (t.calculate_max_refund amount) with
  | error e =>
      have hval : t.refund amount gw db = (.error e, db) := by
        unfold Transaction.refund
        rw [hgw]
      rw [hval] at h
      injection h with h1 h2
      rw [← h2]
      exact hinv
  | ok pr =>
      obtain ⟨o1, o2⟩ := pr
      have hval : t.refund amount gw db
          = (.ok ((sync_from_braintree_object db o1).2,
              (sync_from_braintree_object
                (sync_from_braintree_object db o1).1 o2).2),
            (sync_from_braintree_object
              (sync_from_braintree_object db o1).1 o2).1) := by
        unfold Transaction.refund
        rw [hgw]
      rw [hval] at h
      injection h with h1 h2
      rw [← h2]
      exact sync_invariant _ o2 (sync_invariant db o1 hinv)

/-- Claim C8: starting from a store satisfying the uniqueness invariants —
at most one `Customer` row per remote identifier and per owning entity, at
most one `Transaction` row per remote identifier — every operation
preserves them: sync, `Customer.create`, `Customer.get_or_create`, and the
post-sync of every action method (capture, void, the escrow transitions,
refund); and a create whose gateway-assigned remote identifier already has
a local row surfaces the storage layer's uniqueness violation instead of
producing a second row. -/
theorem operations_preserve_invariants (db : DB) (hinv : db.Invariant) :
    (∀ o, ((sync_from_braintree_object db o).1).Invariant) ∧
    (∀ api entity kwargs db2 c calls,
      Customer.create api db entity kwargs = (.ok (db2, c), calls) →
        db2.Invariant) ∧
    (∀ api entity kwargs db2 c b calls,
      Customer.get_or_create api db entity kwargs
        = (.ok (db2, c, b), calls) → db2.Invariant) ∧
    (∀ t resp r db2, Transaction.capture t resp db = (r, db2) →
      db2.Invariant) ∧
    (∀ t resp r db2, Transaction.void t resp db = (r, db2) →
      db2.Invariant) ∧
    (∀ t resp r db2, Transaction.hold_in_escrow t resp db = (r, db2) →
      db2.Invariant) ∧
    (∀ t resp r db2, Transaction.release_from_escrow t resp db = (r, db2) →
      db2.Invariant) ∧
    (∀ t resp r db2, Transaction.cancel_release t resp db = (r, db2) →
      db2.Invariant) ∧
    (∀ t amount gw res db2, Transaction.refund t amount gw db = (res, db2) →
      db2.Invariant) ∧
    (∀ api entity kwargs c, c ∈ db.customers →
      c.braintree_id = (api (Customer.createRequest entity kwargs)).id →
      (Customer.create api db entity kwargs).1
        = .error .uniquenessViolation) := by
  refine ⟨fun o => sync_invariant db o hinv,
    fun api entity kwargs db2 c calls h =>
      create_invariant api db entity kwargs db2 c calls hinv h,
    fun api entity kwargs db2 c b calls h =>
      get_or_create_invariant api db entity kwargs db2 c b calls hinv h,
    fun t resp r db2 h => gatewayActionSync_invariant db resp r db2 hinv h,
    fun t resp r db2 h => gatewayActionSync_invariant db resp r db2 hinv h,
    fun t resp r db2 h => gatewayActionSync_invariant db resp r db2 hinv h,
    fun t resp r db2 h => gatewayActionSync_invariant db resp r db2 hinv h,
    fun t resp r db2 h => gatewayActionSync_invariant db resp r db2 hinv h,
    fun t amount gw res db2 h =>
      refund_invariant db t amount gw res db2 hinv h,
    ?_⟩
  intro api entity kwargs c hc hid
  have hany : db.customers.any (fun x => x.braintree_id ==
      (api (Customer.createRequest entity kwargs)).id) = true :=
    List.any_eq_true.mpr ⟨c, hc, by simp [hid]⟩
  have hins : db.insertCustomer
      { braintree_id := (api (Customer.createRequest entity kwargs)).id
        entity := some entity.id
        first_name := (api (Customer.createRequest entity kwargs)).first_name
        last_name := (api (Customer.createRequest entity kwargs)).last_name
        email := (api (Customer.createRequest entity kwargs)).email }
      = .error .uniquenessViolation := by
    unfold DB.insertCustomer
    rw [if_pos hany]
  simp [Customer.create, hins]

/-- Witness for C8 at the empty store, whose invariants hold trivially. -/
theorem operations_preserve_invariants_witness :
    emptyDB.Invariant ∧
    ((∀ o, ((sync_from_braintree_object emptyDB o).1).Invariant) ∧
      (∀ api entity kwargs db2 c calls,
        Customer.create api emptyDB entity kwargs = (.ok (db2, c), calls) →
          db2.Invariant) ∧
      (∀ api entity kwargs db2 c b calls,
        Customer.get_or_create api emptyDB entity kwargs
          = (.ok (db2, c, b), calls) → db2.Invariant) ∧
      (∀ t resp r db2, Transaction.capture t resp emptyDB = (r, db2) →
        db2.Invariant) ∧
      (∀ t resp r db2, Transaction.void t resp emptyDB = (r, db2) →
        db2.Invariant) ∧
      (∀ t resp r db2, Transaction.hold_in_escrow t resp emptyDB = (r, db2) →
        db2.Invariant) ∧
      (∀ t resp r db2,
        Transaction.release_from_escrow t resp emptyDB = (r, db2) →
          db2.Invariant) ∧
      (∀ t resp r db2, Transaction.cancel_release t resp emptyDB = (r, db2) →
        db2.Invariant) ∧
      (∀ t amount gw res db2,
        Transaction.refund t amount gw emptyDB = (res, db2) →
          db2.Invariant) ∧
      (∀ api entity kwargs c, c ∈ emptyDB.customers →
        c.braintree_id = (api (Customer.createRequest entity kwargs)).id →
        (Customer.create api emptyDB entity kwargs).1
          = .error .uniquenessViolation)) :=
  ⟨⟨List.Pairwise.nil, List.Pairwise.nil, List.Pairwise.nil⟩,
    operations_preserve_invariants emptyDB
      ⟨List.Pairwise.nil, List.Pairwise.nil, List.Pairwise.nil⟩⟩

end DjBraintree
